import Mathlib

/-!
Verification development for the movie-bag REST API (flask-rest-api-blog-series).

The authentication / ownership core is embedded shallowly:
  * `database/models.py` (Part 5): `User`, `Movie`, the PULL / CASCADE delete
    rules — as Lean structures and explicit state-transformer functions;
  * `resources/reset_password.py` (Part 6): `ForgotPassword.post`,
    `ResetPassword.post` — as functions from a request and a database state to
    an outcome together with the sequence of persisted states;
  * `resources/movie.py` (Part 3): `MoviesApi.post`, `MovieApi.put`,
    `MovieApi.delete` — as functions on the database state, with `jwt_required`
    modelled as an explicit token-decoding stage;
  * the JWT token service (flask_jwt_extended / pyjwt, an external collaborator)
    and `resources/auth.py` (absent from the sources; only its tests are
    available) are modelled from the specification, as marked on each
    definition.

Machine integers do not occur; ids are `Nat`, times are seconds as `Nat`.
-/

namespace MovieBag

instance {ε α : Type} [DecidableEq ε] [DecidableEq α] : DecidableEq (Except ε α) :=
  fun x y =>
    match x, y with
    | .ok a, .ok b => decidable_of_iff (a = b) (by simp)
    | .error e, .error f => decidable_of_iff (e = f) (by simp)
    | .ok _, .error _ => isFalse (by simp)
    | .error _, .ok _ => isFalse (by simp)

abbrev UserId := Nat
abbrev MovieId := Nat

/-- `database/models.py` lines 10-13: the `User` document.  `password` is the
stored password field (whatever string was last persisted there — hash or not);
`movies` is the list of references to `Movie` documents. -/
structure User where
  id : UserId
  email : String
  password : String
  movies : List MovieId
deriving DecidableEq

/-- `database/models.py` lines 4-8: the `Movie` document.  `added_by` is the
optional reference to the owning `User`. -/
structure Movie where
  id : MovieId
  name : String
  casts : List String
  genres : List String
  added_by : Option UserId
deriving DecidableEq

/-- The persistent store: the `User` and `Movie` collections. -/
structure DB where
  users : List User
  movies : List Movie
deriving DecidableEq

/-- `database/models.py` line 16: `flask_bcrypt.generate_password_hash`,
modelled as an injective tagging function whose outputs are recognisable by the
`"bcrypt$"` tag (real bcrypt outputs start with a `"$2b$"`-style tag and are
never equal to the plaintext input). -/
def generate_password_hash (plaintext : String) : String :=
  "bcrypt$" ++ plaintext

/-- Recognises strings produced by `generate_password_hash` (starts with the
`"bcrypt$"` tag, expressed over the character list). -/
def isHashOutput (s : String) : Bool :=
  s.data.take 7 == ("bcrypt$" : String).data

/-- `database/models.py` lines 18-19: `check_password` via
`flask_bcrypt.check_password_hash` — true iff the stored hash is the hash of
the submitted plaintext. -/
def check_password_hash (stored plaintext : String) : Bool :=
  stored == generate_password_hash plaintext

/-- Modelled from the spec: the Token Service signature over the process-wide
signing key (§4.2).  The signature binds key, subject identity, issued-at and
expiry. -/
def sign (key identity : String) (iat expiry : Nat) : String :=
  key ++ "#" ++ identity ++ "#" ++ toString iat ++ "#" ++ toString expiry

/-- Modelled from the spec: a bearer token as presented for verification
(§4.2 / §3 "Bearer Token").  `signed` carries subject identity, issued-at,
expiry and a signature; `malformed` is a string that cannot be decoded at
all. -/
inductive Jwt where
  | signed (identity : String) (iat expiry : Nat) (sig : String)
  | malformed (raw : String)
deriving DecidableEq

/-- Modelled from the spec: `flask_jwt_extended.create_access_token`
(`issue(subject_id, ttl)`, §4.2) — expiry = issued-at + ttl, signed with the
process key.  Call sites: login (7-day session token, spec §4.4) and
`reset_password.py` lines 25-26 (24-hour reset token). -/
def create_access_token (key : String) (now : Nat) (identity : String)
    (ttlSeconds : Nat) : Jwt :=
  .signed identity now (now + ttlSeconds) (sign key identity now (now + ttlSeconds))

/-- The pyjwt failure modes relevant to `reset_password.py` lines 8-9. -/
inductive JwtError where
  | decodeError
  | invalidToken
  | expiredSignature
deriving DecidableEq

/-- Modelled from the spec: `flask_jwt_extended.decode_token`
(`verify(token_string)`, §4.2).  pyjwt decodes (garbage → `DecodeError`),
verifies the signature (`InvalidTokenError` family), then checks the `exp`
claim (`ExpiredSignatureError`).  On success it yields the subject identity. -/
def decode_token (key : String) (now : Nat) (t : Jwt) : Except JwtError String :=
  match t with
  | .malformed _ => .error .decodeError
  | .signed identity iat expiry sig =>
    if sig ≠ sign key identity iat expiry then .error .invalidToken
    else if expiry ≤ now then .error .expiredSignature
    else .ok identity

/-- The application / library exceptions surfacing from the embedded handlers.
`nameError s` is an unhandled Python `NameError` on the undefined name `s`
(raised when a handler references a class it never imported). -/
inductive PyExc where
  | schemaValidation
  | internalServer
  | emailDoesNotExist
  | badToken
  | unauthorized
  | emailAlreadyExists
  | doesNotExist
  | nameError (missing : String)
deriving DecidableEq

/-- Overwrite the stored password of user `uid`, leaving everything else as
it is (one atomic single-document write). -/
def writePassword (db : DB) (uid : UserId) (pw : String) : DB :=
  ⟨db.users.map (fun v => if v.id = uid then { v with password := pw } else v),
   db.movies⟩

/-- `resources/reset_password.py` lines 12-40, `ForgotPassword.post`.
Input: the optional `email` field of the JSON body.  Output: the outcome and
the reset token created (dispatched by email), if any.

Line 18: `if not email` — absent or empty email → `SchemaValidationError`.
Line 21: `User.objects.get(email=email)` raises mongoengine `DoesNotExist`
when no user matches (it never returns a falsy value, so the `if not user`
check on line 22 is unreachable); `DoesNotExist` is caught only by the
catch-all `except Exception` on line 39 → `InternalServerError`.
Lines 25-26: a 24-hour token bound to `str(user.id)` is created and emailed. -/
def forgotPasswordPost (key : String) (now : Nat) (db : DB)
    (email? : Option String) : Except PyExc Unit × Option Jwt :=
  match email? with
  | none => (.error .schemaValidation, none)
  | some email =>
    if email = "" then (.error .schemaValidation, none)
    else
      match db.users.find? (fun u => u.email == email) with
      | none => (.error .internalServer, none)
      | some user =>
        let reset_token := create_access_token key now (toString user.id) (24 * 3600)
        (.ok (), some reset_token)

/-- `resources/reset_password.py` lines 43-75, `ResetPassword.post`.
Input: the optional `reset_token` and `password` fields of the JSON body.
Output: the outcome together with the sequence of database states persisted
by the handler, in order (`user.modify` on line 58 is an atomic persisted
update writing the submitted plaintext; `user.save()` on line 60 then persists
the bcrypt hash computed by `hash_password()` on line 59).

Exception mapping (lines 68-75): `SchemaValidationError` is re-raised;
`ExpiredSignatureError` is answered by `raise ExpiredTokenError` on line 71,
but `ExpiredTokenError` is not among the imports on lines 6-7, so that raise
itself raises an unhandled `NameError` (an exception raised inside an `except`
clause is not caught by the later clauses of the same `try`);
`DecodeError` / `InvalidTokenError` → `BadTokenError`; everything else —
including the mongoengine `DoesNotExist` from `User.objects.get(id=user_id)`
on line 56 when the token subject matches no user — → `InternalServerError`. -/
def resetPasswordPost (key : String) (now : Nat) (db : DB)
    (reset_token? : Option Jwt) (password? : Option String) :
    Except PyExc Unit × List DB :=
  match reset_token?, password? with
  | none, _ => (.error .schemaValidation, [])
  | _, none => (.error .schemaValidation, [])
  | some reset_token, some password =>
    if password = "" then (.error .schemaValidation, [])
    else
      match decode_token key now reset_token with
      | .error .expiredSignature => (.error (.nameError "ExpiredTokenError"), [])
      | .error .decodeError => (.error .badToken, [])
      | .error .invalidToken => (.error .badToken, [])
      | .ok user_id =>
        match db.users.find? (fun u => toString u.id == user_id) with
        | none => (.error .internalServer, [])
        | some user =>
          let db1 := writePassword db user.id password
          let db2 := writePassword db1 user.id (generate_password_hash password)
          (.ok (), [db1, db2])

/-- The JSON body of a movie creation request (`name`, `casts`, `genres`), as
in `tests/test_create_movie.py` lines 20-24. -/
structure MovieBody where
  name : String
  casts : List String
  genres : List String
deriving DecidableEq

/-- The JSON body of a movie update request: the fields it carries replace the
corresponding document fields (`update(**body)`). -/
structure MovieUpdate where
  name : Option String
  casts : Option (List String)
  genres : Option (List String)
deriving DecidableEq

/-- Apply a `PUT` body to a movie document, field by field. -/
def applyUpdate (b : MovieUpdate) (m : Movie) : Movie :=
  { m with
    name := b.name.getD m.name
    casts := b.casts.getD m.casts
    genres := b.genres.getD m.genres }

/-- `database/models.py` line 13: `movies = ListField(ReferenceField(Movie, reverse_delete_rule=PULL))` — deleting a `Movie` pulls its reference out of the
`movies` list of every `User`. -/
def pullMovieRef (mid : MovieId) (u : User) : User :=
  { u with movies := u.movies.filter (fun r => r ≠ mid) }

/-- Deleting one `Movie` document (`movie.delete()`): the document is removed
from the collection and the PULL reverse-delete rule of
`database/models.py` line 13 removes its reference from every user. -/
def deleteMovieDoc (db : DB) (mid : MovieId) : DB :=
  ⟨db.users.map (pullMovieRef mid), db.movies.filter (fun m => m.id ≠ mid)⟩

/-- `database/models.py` line 21:
`User.register_delete_rule(Movie, added_by, CASCADE)` — deleting a `User`
cascade-deletes every `Movie` whose `added_by` references it; each cascaded
`Movie` deletion in turn applies the PULL rule (`deleteMovieDoc`), and the
user document itself is removed. -/
def deleteUserDoc (db : DB) (uid : UserId) : DB :=
  let cascaded := db.movies.filter (fun m => m.added_by == some uid)
  let db1 := cascaded.foldl (fun d m => deleteMovieDoc d m.id) db
  ⟨db1.users.filter (fun u => u.id ≠ uid), db1.movies⟩

/-- `resources/movie.py` (Part 3) lines 12-22, `MoviesApi.post`.
`jwt_required` decodes the bearer token first; any decode failure means the
handler body never runs (flask_jwt_extended answers 401/422 itself) —
modelled as the `unauthorized` outcome.  Then `get_jwt_identity()` yields the
identity string of the token, `User.objects.get(id=user_id)` raises `DoesNotExist`
when it matches no user (unhandled here), the movie is saved with
`added_by=user` (the unique constraint on `name`, `database/models.py` line 5,
makes the save fail on a duplicate name), and the movie reference is pushed
onto the `movies` list of the user. -/
def moviesApiPost (key : String) (now : Nat) (db : DB) (auth : Jwt)
    (body : MovieBody) (freshId : MovieId) : Except PyExc String × DB :=
  match decode_token key now auth with
  | .error _ => (.error .unauthorized, db)
  | .ok user_id =>
    match db.users.find? (fun u => toString u.id == user_id) with
    | none => (.error .doesNotExist, db)
    | some user =>
      if db.movies.any (fun m => m.name == body.name) then
        (.error .internalServer, db)
      else
        let movie : Movie := ⟨freshId, body.name, body.casts, body.genres, some user.id⟩
        (.ok (toString freshId),
         ⟨db.users.map (fun v =>
            if v.id = user.id then { v with movies := v.movies ++ [freshId] } else v),
          db.movies ++ [movie]⟩)

/-- `resources/movie.py` (Part 3) lines 25-31, `MovieApi.put`.
After `jwt_required`, line 28 `Movie.objects.get(id=id, added_by=user_id)`
raises `DoesNotExist` — unhandled — unless a movie with that id has
`added_by` equal to the requester; only then does line 30 update the document
(matched by id alone). -/
def movieApiPut (key : String) (now : Nat) (db : DB) (auth : Jwt)
    (id : MovieId) (body : MovieUpdate) : Except PyExc Unit × DB :=
  match decode_token key now auth with
  | .error _ => (.error .unauthorized, db)
  | .ok user_id =>
    match db.movies.find? (fun m =>
        m.id == id && m.added_by.any (fun uid => toString uid == user_id)) with
    | none => (.error .doesNotExist, db)
    | some _ =>
      (.ok (),
       ⟨db.users, db.movies.map (fun m => if m.id = id then applyUpdate body m else m)⟩)

/-- `resources/movie.py` (Part 3) lines 33-38, `MovieApi.delete`.
Same ownership-filtered lookup as `put`; on success the movie is deleted
(with the PULL reverse-delete rule). -/
def movieApiDelete (key : String) (now : Nat) (db : DB) (auth : Jwt)
    (id : MovieId) : Except PyExc Unit × DB :=
  match decode_token key now auth with
  | .error _ => (.error .unauthorized, db)
  | .ok user_id =>
    match db.movies.find? (fun m =>
        m.id == id && m.added_by.any (fun uid => toString uid == user_id)) with
    | none => (.error .doesNotExist, db)
    | some movie => (.ok (), deleteMovieDoc db movie.id)

/-- Modelled from the spec: syntactic email validity (mongoengine
format check of the mongoengine EmailField, abstracted to the presence of an `@`). -/
def validEmail (s : String) : Bool :=
  s.data.contains '@'

/-- Modelled from the spec: `resources/auth.py` `LoginApi.post` is not under
`src/` (only `tests/test_login.py` is).  §4.4 Login: look up the user by
email; if absent → `AuthenticationError` with the message
"Invalid username or password" and status 401, deliberately identical to the
wrong-password case; verify the password via the hasher; mismatch → the same
error; success → issue a session token (7-day lifetime) for `str(user.id)`. -/
def loginPost (key : String) (now : Nat) (db : DB) (email password : String) :
    Except (String × Nat) Jwt :=
  match db.users.find? (fun u => u.email == email) with
  | none => .error ("Invalid username or password", 401)
  | some user =>
    if check_password_hash user.password password then
      .ok (create_access_token key now (toString user.id) (7 * 24 * 3600))
    else
      .error ("Invalid username or password", 401)

/-- The JSON body of a signup request.  `extraField` records whether the body
carries a key that is not a `User` document field (mongoengine raises
`FieldDoesNotExist` for those, `tests/test_signup.py` lines 21-34). -/
structure SignupBody where
  email? : Option String
  password? : Option String
  extraField : Bool
deriving DecidableEq

/-- Modelled from the spec: `resources/auth.py` `SignupApi.post` is not under
`src/`; reconstructed from §4.4 Signup, the `User` model constraints in
`database/models.py` lines 10-12, and the outcomes pinned by
`tests/test_signup.py`.  The handler builds `User(**body)` (an unknown field →
`FieldDoesNotExist` → `SchemaValidationError`, 400), calls `hash_password()`
(hashing a missing password raises → caught by the catch-all →
`InternalServerError`, 500, as `test_signup_without_password` asserts), then
saves: mongoengine validation of the stored values runs first (missing
required `email` or an invalid email format → `ValidationError` →
`InternalServerError`, as `test_signup_without_email` asserts; the
`min_length=6` constraint is checked against the already-hashed password, so
it never fails), and the unique index on `email` rejects a duplicate
(`NotUniqueError` → `EmailAlreadyExistsError`, 400, as
`test_creating_already_existing_user` asserts).  The returned `Bool` records
whether the password hasher was invoked. -/
def signupPost (freshId : UserId) (db : DB) (b : SignupBody) :
    Except PyExc String × DB × Bool :=
  if b.extraField then (.error .schemaValidation, db, false)
  else
    match b.password? with
    | none => (.error .internalServer, db, false)
    | some password =>
      let hashed := generate_password_hash password
      match b.email? with
      | none => (.error .internalServer, db, true)
      | some email =>
        if ¬ validEmail email then (.error .internalServer, db, true)
        else if db.users.any (fun u => u.email == email) then
          (.error .emailAlreadyExists, db, true)
        else
          (.ok (toString freshId),
           ⟨db.users ++ [⟨freshId, email, hashed, []⟩], db.movies⟩, true)

/-- Referential integrity of the ownership links (§3 Relationships): every
movie reference held by a user resolves to an existing movie, and every
`added_by` of every movie resolves to an existing user. -/
def Integrity (db : DB) : Prop :=
  (∀ u ∈ db.users, ∀ mid ∈ u.movies, ∃ m ∈ db.movies, m.id = mid) ∧
  (∀ m ∈ db.movies, ∀ uid ∈ m.added_by.toList, ∃ u ∈ db.users, u.id = uid)

instance (db : DB) : Decidable (Integrity db) := by
  unfold Integrity
  infer_instance

/-! ## Helper lemmas (shared) -/

/-- Every output of the password hasher carries the hash tag. -/
lemma isHashOutput_generate (p : String) :
    isHashOutput (generate_password_hash p) = true := by
  unfold isHashOutput generate_password_hash
  rw [String.data_append,
    show (7 : Nat) = ("bcrypt$" : String).data.length from rfl, List.take_left]
  exact beq_self_eq_true _

/-- The hasher never returns a string that lacks the hash tag; in particular
it never returns a given plaintext that lacks it. -/
lemma generate_password_hash_ne_of_not_hash (p s : String)
    (h : isHashOutput s = false) : generate_password_hash p ≠ s := by
  intro he
  rw [← he, isHashOutput_generate] at h
  simp at h

/-- Verifying an untampered token with the issuing key before its expiry
succeeds and returns the subject identity it was issued for. -/
lemma decode_token_create (key identity : String) (iat ttl now : Nat)
    (h : now < iat + ttl) :
    decode_token key now (create_access_token key iat identity ttl) = .ok identity := by
  have hexp : ¬ (iat + ttl ≤ now) := by omega
  simp [decode_token, create_access_token, hexp]

/-! ## Claim theorems -/

/-- C1: evaluation of `ResetPassword.post` at the failing inputs.  An expired
reset token does make the request fail without any persisted write (empty
trace), but the failure is an unhandled `NameError` on the unimported name
`ExpiredTokenError` (line 71 of `reset_password.py`), not `ExpiredTokenError`;
a malformed token fails with `BadTokenError` as claimed; a valid token whose
subject resolves to no user fails with `InternalServerError` (the mongoengine
`DoesNotExist` falls into the catch-all), not `BadTokenError`.  In every
failure case the trace of persisted states is empty, so no stored password
changes. -/
theorem resetPassword_failure_modes_eval :
    resetPasswordPost "key" 100 ⟨[⟨1, "a@x.com", generate_password_hash "oldpw", []⟩], []⟩
        (some (create_access_token "key" 0 "1" 10)) (some "newpw") =
      (.error (.nameError "ExpiredTokenError"), []) ∧
    resetPasswordPost "key" 100 ⟨[⟨1, "a@x.com", generate_password_hash "oldpw", []⟩], []⟩
        (some (.malformed "not-a-jwt")) (some "newpw") =
      (.error .badToken, []) ∧
    resetPasswordPost "key" 5 ⟨[⟨1, "a@x.com", generate_password_hash "oldpw", []⟩], []⟩
        (some (.signed "1" 0 10 "forged-signature")) (some "newpw") =
      (.error .badToken, []) ∧
    resetPasswordPost "key" 5 ⟨[⟨1, "a@x.com", generate_password_hash "oldpw", []⟩], []⟩
        (some (create_access_token "key" 0 "7" 10)) (some "newpw") =
      (.error .internalServer, []) := by
  refine ⟨by decide, by decide, by decide, by decide⟩

/-- C2: evaluation of `ForgotPassword.post` at an email address for which no
user exists.  The operation fails and creates no reset token, as claimed, but
the error is `InternalServerError`, not `EmailNotFoundError`: line 21 of
`reset_password.py` raises mongoengine `DoesNotExist`, which only the
catch-all `except Exception` handles — the `EmailDoesnotExistsError` branch is
dead code. -/
theorem forgotPassword_unknown_email_eval :
    forgotPasswordPost "key" 0 ⟨[⟨1, "a@x.com", generate_password_hash "pw", []⟩], []⟩
        (some "ghost@x.com") = (.error .internalServer, none) ∧
    PyExc.internalServer ≠ PyExc.emailDoesNotExist := by
  refine ⟨by decide, by decide⟩

/-- C5: evaluation of a successful `ResetPassword.post`.  The first persisted
state of the trace — written by `user.modify(password=password)` on line 58,
before `hash_password()` runs — stores the submitted plaintext "newsecret" as
the password of the user, and that value is not an output of the password
hasher; only the second persisted write stores the hash. -/
theorem resetPassword_persists_plaintext_eval :
    resetPasswordPost "key" 5 ⟨[⟨1, "a@x.com", generate_password_hash "oldpw", []⟩], []⟩
        (some (create_access_token "key" 0 "1" 10)) (some "newsecret") =
      (.ok (), [⟨[⟨1, "a@x.com", "newsecret", []⟩], []⟩,
                ⟨[⟨1, "a@x.com", generate_password_hash "newsecret", []⟩], []⟩]) ∧
    isHashOutput "newsecret" = false ∧
    (∀ p : String, generate_password_hash p ≠ "newsecret") := by
  refine ⟨by decide, by decide, fun p => generate_password_hash_ne_of_not_hash p _ (by decide)⟩

/-- C6: round trip of the Token Service — verifying a token issued for a
subject identity, before its expiry and untampered, with the issuing key,
succeeds and returns exactly that identity.  `create_access_token` is the
issuing primitive used both at login (`loginPost`) and at forgot-password
(`forgotPasswordPost`). -/
theorem token_roundtrip (key identity : String) (iat ttl now : Nat)
    (h : now < iat + ttl) :
    decode_token key now (create_access_token key iat identity ttl) = .ok identity :=
  decode_token_create key identity iat ttl now h

/-- Witness for C6 at a concrete subject and ttl. -/
theorem token_roundtrip_witness :
    (10 : Nat) < 0 + 3600 ∧
    decode_token "key" 10 (create_access_token "key" 0 "42" 3600) = .ok "42" :=
  ⟨by decide, token_roundtrip "key" "42" 0 3600 10 (by decide)⟩

/-- C3: the login failure for an unknown email and the login failure for an
existing email with a wrong password are the very same error value — the
message "Invalid username or password" with status 401 — so the two failure
causes are not distinguishable by any caller. -/
theorem login_failures_indistinguishable (key : String) (now : Nat) (db : DB)
    (e1 p1 e2 p2 : String)
    (h1 : ∀ u ∈ db.users, u.email ≠ e1)
    (u : User) (h2 : db.users.find? (fun v => v.email == e2) = some u)
    (h3 : check_password_hash u.password p2 = false) :
    loginPost key now db e1 p1 = loginPost key now db e2 p2 ∧
    loginPost key now db e1 p1 = .error ("Invalid username or password", 401) := by
  have hn : db.users.find? (fun v => v.email == e1) = none :=
    List.find?_eq_none.mpr (fun v hv => by simpa using h1 v hv)
  refine ⟨?_, ?_⟩ <;> simp [loginPost, hn, h2, h3]

/-- Witness for C3: a store with one user whose stored password is the hash
of "abcdef"; login with an unknown email versus login with the known email and
the wrong password "wrong". -/
theorem login_failures_indistinguishable_witness :
    loginPost "key" 0 ⟨[⟨1, "a@x.com", generate_password_hash "abcdef", []⟩], []⟩
        "b@x.com" "whatever"
      = loginPost "key" 0 ⟨[⟨1, "a@x.com", generate_password_hash "abcdef", []⟩], []⟩
        "a@x.com" "wrong" ∧
    loginPost "key" 0 ⟨[⟨1, "a@x.com", generate_password_hash "abcdef", []⟩], []⟩
        "b@x.com" "whatever" = .error ("Invalid username or password", 401) :=
  login_failures_indistinguishable "key" 0
    ⟨[⟨1, "a@x.com", generate_password_hash "abcdef", []⟩], []⟩
    "b@x.com" "whatever" "a@x.com" "wrong" (by decide)
    ⟨1, "a@x.com", generate_password_hash "abcdef", []⟩ (by decide) (by decide)

/-- C4: an authenticated `PUT` or `DELETE` on a movie id is denied with the
`DoesNotExist` (not-found) outcome and leaves the store untouched whenever no
movie with that id has `added_by` equal to the requester — covering a movie
owned by someone else, a movie with `added_by` absent, and a movie id that
does not exist. -/
theorem movie_mutation_denied_for_non_owner (key : String) (now : Nat) (db : DB)
    (auth : Jwt) (s : String) (hdec : decode_token key now auth = .ok s)
    (id : MovieId) (body : MovieUpdate)
    (hdeny : ∀ m ∈ db.movies, m.id = id → ∀ uid ∈ m.added_by.toList, toString uid ≠ s) :
    movieApiPut key now db auth id body = (.error .doesNotExist, db) ∧
    movieApiDelete key now db auth id = (.error .doesNotExist, db) := by
  have hfind : db.movies.find? (fun m =>
      m.id == id && m.added_by.any (fun uid => toString uid == s)) = none := by
    apply List.find?_eq_none.mpr
    intro m hm hmt
    rw [Bool.and_eq_true] at hmt
    obtain ⟨hid, hown⟩ := hmt
    cases hab : m.added_by with
    | none => rw [hab] at hown; simp [Option.any] at hown
    | some uid =>
      rw [hab] at hown
      simp only [Option.any, beq_iff_eq] at hown
      exact hdeny m hm (by simpa using hid) uid (by simp [hab]) hown
  refine ⟨?_, ?_⟩ <;> simp [movieApiPut, movieApiDelete, hdec, hfind]

/-- Witness for C4: user 1 attempts to update and to delete movie 20, which is
owned by user 2; both requests are denied with the not-found outcome and the
store is unchanged. -/
theorem movie_mutation_denied_for_non_owner_witness :
    movieApiPut "key" 5
        ⟨[⟨1, "a@x.com", "h1", []⟩, ⟨2, "b@x.com", "h2", [20]⟩],
         [⟨20, "Alien", ["S"], ["SF"], some 2⟩]⟩
        (create_access_token "key" 0 "1" 10) 20 ⟨some "X", none, none⟩ =
      (.error .doesNotExist,
       ⟨[⟨1, "a@x.com", "h1", []⟩, ⟨2, "b@x.com", "h2", [20]⟩],
        [⟨20, "Alien", ["S"], ["SF"], some 2⟩]⟩) ∧
    movieApiDelete "key" 5
        ⟨[⟨1, "a@x.com", "h1", []⟩, ⟨2, "b@x.com", "h2", [20]⟩],
         [⟨20, "Alien", ["S"], ["SF"], some 2⟩]⟩
        (create_access_token "key" 0 "1" 10) 20 =
      (.error .doesNotExist,
       ⟨[⟨1, "a@x.com", "h1", []⟩, ⟨2, "b@x.com", "h2", [20]⟩],
        [⟨20, "Alien", ["S"], ["SF"], some 2⟩]⟩) :=
  movie_mutation_denied_for_non_owner "key" 5
    ⟨[⟨1, "a@x.com", "h1", []⟩, ⟨2, "b@x.com", "h2", [20]⟩],
     [⟨20, "Alien", ["S"], ["SF"], some 2⟩]⟩
    (create_access_token "key" 0 "1" 10) "1" (by decide) 20 ⟨some "X", none, none⟩
    (by decide)

/-- Counterexample for C7: with a user of email "a@x.com" already present, a
second signup with that email does fail with `EmailAlreadyExistsError` and
persists nothing — but the hasher-invoked flag of the outcome is `true`: the
password is hashed before the write-time uniqueness failure, refuting the
claim that the request fails before hashing. -/
theorem signup_duplicate_hashes_before_failing :
    signupPost 2 ⟨[⟨1, "a@x.com", generate_password_hash "first1", []⟩], []⟩
        ⟨some "a@x.com", some "whatever", false⟩ =
      (.error .emailAlreadyExists,
       ⟨[⟨1, "a@x.com", generate_password_hash "first1", []⟩], []⟩, true) := by
  decide

/-- C7 (amended): in every state in which a user with (well-formed) email `e`
exists, a signup request with email `e` and no unknown extra field fails with
`EmailAlreadyExistsError` regardless of the password value and persists no new
user; the password is hashed before the create attempt (uniqueness is enforced
at write time by the store). -/
theorem signup_duplicate_email_fails (freshId : UserId) (db : DB) (e p : String)
    (hv : validEmail e = true) (u : User) (hu : u ∈ db.users) (he : u.email = e) :
    signupPost freshId db ⟨some e, some p, false⟩ =
      (.error .emailAlreadyExists, db, true) := by
  have hany : db.users.any (fun v => v.email == e) = true :=
    List.any_eq_true.mpr ⟨u, hu, by simp [he]⟩
  simp [signupPost, hv, hany]

/-- Witness for C7 at a concrete duplicate signup. -/
theorem signup_duplicate_email_fails_witness :
    signupPost 2 ⟨[⟨1, "a@x.com", generate_password_hash "first1", []⟩], []⟩
        ⟨some "a@x.com", some "second", false⟩ =
      (.error .emailAlreadyExists,
       ⟨[⟨1, "a@x.com", generate_password_hash "first1", []⟩], []⟩, true) :=
  signup_duplicate_email_fails 2
    ⟨[⟨1, "a@x.com", generate_password_hash "first1", []⟩], []⟩ "a@x.com" "second"
    (by decide) ⟨1, "a@x.com", generate_password_hash "first1", []⟩
    (by simp) (by decide)

/-- Counterexample for C8: a signup request missing the email field (and one
missing the password field) fails with `InternalServerError`, not with
`SchemaValidationError` — exactly what `tests/test_signup.py` asserts
("Something went wrong", 500) — and a signup with the 3-character password
"abc" and a fresh valid email does not fail at all: it succeeds and persists
a new user, because the `min_length=6` constraint of `database/models.py`
line 12 is validated at save time against the already-hashed stored password,
which is always long enough. -/
theorem signup_missing_field_is_internal_error :
    signupPost 1 ⟨[], []⟩ ⟨none, some "mycoolpassword", false⟩ =
      (.error .internalServer, ⟨[], []⟩, true) ∧
    signupPost 1 ⟨[], []⟩ ⟨some "paurakh011@gmail.com", none, false⟩ =
      (.error .internalServer, ⟨[], []⟩, false) ∧
    PyExc.internalServer ≠ PyExc.schemaValidation ∧
    signupPost 1 ⟨[], []⟩ ⟨some "fresh@x.com", some "abc", false⟩ =
      (.ok "1", ⟨[⟨1, "fresh@x.com", generate_password_hash "abc", []⟩], []⟩, true) := by
  refine ⟨by decide, by decide, by decide, by decide⟩

/-- C8 (amended): a signup request without unknown extra fields that is
missing the email field, missing the password field, or carrying a
syntactically invalid email, fails with `InternalServerError` (surfaced as a
500, per the tests of the repository) — not `SchemaValidationError` — and no
user is created; a password shorter than 6 characters, however, is not
rejected at all: with a fresh valid email the signup succeeds for every
password value and persists a new user holding the hash, since the
`min_length=6` constraint is checked against the stored hash. -/
theorem signup_missing_or_invalid_fails_internal (freshId : UserId) (db : DB)
    (b : SignupBody) (hx : b.extraField = false)
    (h : b.email? = none ∨ b.password? = none ∨
         ∃ e, b.email? = some e ∧ validEmail e = false)
    (e p : String) (hv : validEmail e = true)
    (hfresh : ∀ u ∈ db.users, u.email ≠ e) :
    ((signupPost freshId db b).1 = .error .internalServer ∧
     (signupPost freshId db b).2.1 = db) ∧
    signupPost freshId db ⟨some e, some p, false⟩ =
      (.ok (toString freshId),
       ⟨db.users ++ [⟨freshId, e, generate_password_hash p, []⟩], db.movies⟩, true) := by
  have hany : db.users.any (fun v => v.email == e) = false := by
    rw [Bool.eq_false_iff]
    intro hc
    obtain ⟨u, hu, hue⟩ := List.any_eq_true.mp hc
    exact hfresh u hu (by simpa using hue)
  refine ⟨?_, by simp [signupPost, hv, hany]⟩
  obtain ⟨em, pw, ex⟩ := b
  subst hx
  cases pw with
  | none => simp [signupPost]
  | some q =>
    cases em with
    | none => simp [signupPost]
    | some e' =>
      rcases h with h | h | ⟨e'', he'', hv'⟩
      · exact absurd h (by simp)
      · exact absurd h (by simp)
      · rw [Option.some_inj] at he''
        subst he''
        simp [signupPost, hv']

/-- Witness for C8: a concrete signup request missing the email field fails
internally and persists nothing, and a concrete signup with the short
password "abc" and a fresh valid email succeeds and persists the user. -/
theorem signup_missing_or_invalid_fails_internal_witness :
    ((signupPost 1 ⟨[], []⟩ ⟨none, some "mycoolpassword", false⟩).1 =
       .error .internalServer ∧
     (signupPost 1 ⟨[], []⟩ ⟨none, some "mycoolpassword", false⟩).2.1 =
       (⟨[], []⟩ : DB)) ∧
    signupPost 1 ⟨[], []⟩ ⟨some "fresh@x.com", some "abc", false⟩ =
      (.ok (toString (1 : UserId)),
       ⟨[⟨1, "fresh@x.com", generate_password_hash "abc", []⟩], []⟩, true) :=
  signup_missing_or_invalid_fails_internal 1 ⟨[], []⟩
    ⟨none, some "mycoolpassword", false⟩ (by decide) (Or.inl (by decide))
    "fresh@x.com" "abc" (by decide) (by decide)

/-- Counterexample for C9: the reset token issued by the forgot-password flow
for user 1, presented as the bearer token of the authenticated movie creation
endpoint, is accepted — the movie is created with `added_by` user 1 — instead
of being rejected as the claim states. -/
theorem reset_token_accepted_as_session_token :
    (forgotPasswordPost "key" 0 ⟨[⟨1, "a@x.com", generate_password_hash "abcdef", []⟩], []⟩
        (some "a@x.com")).2 = some (create_access_token "key" 0 "1" 86400) ∧
    moviesApiPost "key" 100 ⟨[⟨1, "a@x.com", generate_password_hash "abcdef", []⟩], []⟩
        (create_access_token "key" 0 "1" 86400) ⟨"Star Wars", ["D"], ["SF"]⟩ 10 =
      (.ok "10", ⟨[⟨1, "a@x.com", generate_password_hash "abcdef", [10]⟩],
                  [⟨10, "Star Wars", ["D"], ["SF"], some 1⟩]⟩) := by
  refine ⟨by decide, by decide⟩

/-- C9 (amended): reset tokens and session tokens are interchangeable — both
are produced by `create_access_token` with no purpose claim, and `jwt_required`
on the movie endpoints accepts any token that verifies, so a still-valid reset
token bound to an existing user is accepted by the authenticated movie
creation endpoint whenever the movie name is fresh. -/
theorem reset_token_interchangeable_with_session (key s : String)
    (iat ttl now : Nat) (db : DB) (u : User)
    (hu : db.users.find? (fun v => toString v.id == s) = some u)
    (hexp : now < iat + ttl) (body : MovieBody) (mid : MovieId)
    (hname : db.movies.any (fun m => m.name == body.name) = false) :
    (moviesApiPost key now db (create_access_token key iat s ttl) body mid).1 =
      .ok (toString mid) := by
  simp [moviesApiPost, decode_token_create key s iat ttl now hexp, hu, hname]

/-- Witness for C9: the 24-hour reset token of user 1 accepted at the movie
creation endpoint. -/
theorem reset_token_interchangeable_with_session_witness :
    (moviesApiPost "key" 100 ⟨[⟨1, "a@x.com", generate_password_hash "abcdef", []⟩], []⟩
        (create_access_token "key" 0 "1" 86400) ⟨"Alien", ["S"], ["SF"]⟩ 10).1 =
      .ok (toString (10 : MovieId)) :=
  reset_token_interchangeable_with_session "key" "1" 0 86400 100
    ⟨[⟨1, "a@x.com", generate_password_hash "abcdef", []⟩], []⟩
    ⟨1, "a@x.com", generate_password_hash "abcdef", []⟩ (by decide) (by decide)
    ⟨"Alien", ["S"], ["SF"]⟩ 10 (by decide)

/-! ## Referential integrity of the delete rules (C10) -/

/-- A membership in `Option.toList` pins the option down. -/
lemma eq_some_of_mem_toList {α : Type} {o : Option α} {a : α}
    (h : a ∈ o.toList) : o = some a := by
  cases o <;> simp_all

/-- Deleting one movie (with the PULL reverse-delete rule) preserves
referential integrity. -/
lemma integrity_deleteMovieDoc (db : DB) (mid : MovieId) (h : Integrity db) :
    Integrity (deleteMovieDoc db mid) := by
  obtain ⟨h1, h2⟩ := h
  refine ⟨?_, ?_⟩
  · intro u' hu' r hr
    simp only [deleteMovieDoc, List.mem_map] at hu'
    obtain ⟨u, hu, rfl⟩ := hu'
    simp only [pullMovieRef, List.mem_filter, decide_eq_true_eq] at hr
    obtain ⟨hru, hrm⟩ := hr
    obtain ⟨m, hm, hmid⟩ := h1 u hu r hru
    refine ⟨m, ?_, hmid⟩
    simp only [deleteMovieDoc, List.mem_filter, decide_eq_true_eq]
    exact ⟨hm, by rw [hmid]; exact hrm⟩
  · intro m hm uid huid
    simp only [deleteMovieDoc, List.mem_filter] at hm
    obtain ⟨u, hu, hid⟩ := h2 m hm.1 uid huid
    refine ⟨pullMovieRef mid u, ?_, hid⟩
    simp only [deleteMovieDoc, List.mem_map]
    exact ⟨u, hu, rfl⟩

/-- Folding movie deletions over a list preserves referential integrity. -/
lemma integrity_foldl_deleteMovie (l : List Movie) (db : DB) (h : Integrity db) :
    Integrity (l.foldl (fun d m => deleteMovieDoc d m.id) db) := by
  induction l generalizing db with
  | nil => exact h
  | cons c l ih => exact ih _ (integrity_deleteMovieDoc db c.id h)

/-- The movie collection left by a fold of movie deletions: exactly the movies
whose id differs from every deleted id. -/
lemma foldl_deleteMovie_movies (l : List Movie) (db : DB) :
    (l.foldl (fun d m => deleteMovieDoc d m.id) db).movies
      = db.movies.filter (fun m => l.all (fun c => m.id ≠ c.id)) := by
  induction l generalizing db with
  | nil => simp
  | cons c l ih =>
    rw [List.foldl_cons, ih]
    show ((deleteMovieDoc db c.id).movies).filter _ = _
    simp only [deleteMovieDoc]
    rw [List.filter_filter]
    apply List.filter_congr
    intro m hm
    simp only [List.all_cons]
    rw [Bool.and_comm]

/-- Deleting one user (CASCADE on the owned movies, each cascaded movie
deletion applying the PULL rule) preserves referential integrity. -/
lemma integrity_deleteUserDoc (db : DB) (uid : UserId) (h : Integrity db) :
    Integrity (deleteUserDoc db uid) := by
  unfold deleteUserDoc
  obtain ⟨g1, g2⟩ := integrity_foldl_deleteMovie
    (db.movies.filter (fun m => m.added_by == some uid)) db h
  refine ⟨?_, ?_⟩
  · intro u hu r hr
    exact g1 u (List.mem_filter.mp hu).1 r hr
  · intro m hm uid' huid'
    obtain ⟨u, hu, hid⟩ := g2 m hm uid' huid'
    by_cases hne : uid' = uid
    · exfalso
      subst hne
      rw [foldl_deleteMovie_movies, List.mem_filter] at hm
      obtain ⟨hmdb, hall⟩ := hm
      have hmc : m ∈ db.movies.filter (fun m => m.added_by == some uid') := by
        rw [List.mem_filter]
        exact ⟨hmdb, by rw [eq_some_of_mem_toList huid']; exact beq_self_eq_true _⟩
      have := List.all_eq_true.mp hall m hmc
      simp at this
    · refine ⟨u, ?_, hid⟩
      rw [List.mem_filter]
      exact ⟨hu, by simp [hid, hne]⟩

/-- C10: referential integrity of the ownership links is preserved by deletion
in both directions — deleting a `Movie` pulls its reference out of the
`movies` list of every user, and deleting a `User` cascade-deletes every movie
it owns (each cascaded deletion pulling references in turn) — so neither
deletion introduces a dangling movie reference or a movie owned by a
non-existent user. -/
theorem delete_rules_preserve_integrity (db : DB) (h : Integrity db)
    (mid : MovieId) (uid : UserId) :
    Integrity (deleteMovieDoc db mid) ∧ Integrity (deleteUserDoc db uid) :=
  ⟨integrity_deleteMovieDoc db mid h, integrity_deleteUserDoc db uid h⟩

/-- Witness for C10: two users each owning one movie; deleting movie 10 and
deleting user 1 both leave a referentially intact store. -/
theorem delete_rules_preserve_integrity_witness :
    Integrity (deleteMovieDoc
      ⟨[⟨1, "a@x.com", "h1", [10]⟩, ⟨2, "b@x.com", "h2", [20]⟩],
       [⟨10, "A", [], [], some 1⟩, ⟨20, "B", [], [], some 2⟩]⟩ 10) ∧
    Integrity (deleteUserDoc
      ⟨[⟨1, "a@x.com", "h1", [10]⟩, ⟨2, "b@x.com", "h2", [20]⟩],
       [⟨10, "A", [], [], some 1⟩, ⟨20, "B", [], [], some 2⟩]⟩ 1) :=
  ⟨(delete_rules_preserve_integrity
      ⟨[⟨1, "a@x.com", "h1", [10]⟩, ⟨2, "b@x.com", "h2", [20]⟩],
       [⟨10, "A", [], [], some 1⟩, ⟨20, "B", [], [], some 2⟩]⟩ (by decide) 10 1).1,
   (delete_rules_preserve_integrity
      ⟨[⟨1, "a@x.com", "h1", [10]⟩, ⟨2, "b@x.com", "h2", [20]⟩],
       [⟨10, "A", [], [], some 1⟩, ⟨20, "B", [], [], some 2⟩]⟩ (by decide) 10 1).2⟩

end MovieBag
